import Mathlib

/-!
Verification development for the INSTA_bot repository.

The definitions below are a shallow embedding of the publication
scheduling and account engine of src/main.py (class EnhancedInstagramBot)
and, where a claim cites it, of the earlier rewrite in src/insta_bot.py.
Timestamps are natural numbers, database rows are Lean structures, and the
external capabilities (Instagram login, media upload, video-duration
probing) are oracles packaged in an environment record, so that each remote
call and its outcome is explicit.
-/

namespace InstaBot

/-- Embedding of BotConfig (src/main.py, lines 41-53), restricted to the
fields the publication engine reads. -/
structure BotConfig where
  scheduler_interval : Nat
  max_retries : Nat
  max_video_duration : Nat
deriving DecidableEq

/-- The configuration defaults of BotConfig: scheduler_interval 10,
max_retries 3, max_video_duration 60. -/
def defaultConfig : BotConfig := ⟨10, 3, 60⟩

/-- Embedding of the InstagramAccount row (src/main.py, lines 59-72),
restricted to the fields the claims mention.  The encrypted password,
user id and verification method are carried by the credential model
further below and are not needed by the scheduler claims. -/
structure InstagramAccount where
  username : String
  is_active : Bool
  last_used : Option Nat
  posts_count : Nat
  stories_count : Nat
  reels_count : Nat
deriving DecidableEq

/-- Embedding of the Publication row (src/main.py, lines 74-90).
media_paths is stored as a JSON list in the source; the embedding keeps the
decoded list.  The likes/comments/views counters are never touched by the
engine and are omitted. -/
structure Publication where
  account_username : String
  content_type : String
  media_type : String
  media_paths : List String
  caption : String
  publish_time : Nat
  status : String
  published_at : Option Nat
  error_message : Option String
deriving DecidableEq

/-- Environment of external capabilities consumed by the engine.

clientOk models whether decrypting the stored password and logging in
(get_account_client / init_instagram_client) succeeds for a username.

uploadResult gives the outcome of the n-th Publisher upload call of the
run: none means the call succeeds, some msg means the instagrapi call
raises an exception whose str() is msg.

videoDuration is modelled from the spec: video duration probing is an
external collaborator (spec section 1); the get_video_duration method in
src/main.py (lines 370-373) is an acknowledged placeholder that returns
the constant 30.0, so the real probe is modelled as an oracle. -/
structure Env where
  clientOk : String → Bool
  uploadResult : Nat → Option String
  videoDuration : String → Nat

/-- The mutable world a single publish call sees: the account rows and the
running count of Publisher upload calls (the mock call counter of the
spec). -/
structure World where
  accounts : List InstagramAccount
  uploadCalls : Nat
deriving DecidableEq

/-- Update the first list entry satisfying p, leaving the rest unchanged.
This is how a mutation of the first() row of a SQLAlchemy query acts on
the account table. -/
def updateFirst (p : InstagramAccount → Bool) (f : InstagramAccount → InstagramAccount) :
    List InstagramAccount → List InstagramAccount
  | [] => []
  | a :: rest => if p a then f a :: rest else a :: updateFirst p f rest

/-- The query filter_by(username=u, is_active=True).first() of
get_account_client (src/main.py, lines 332-334). -/
def findActive (accs : List InstagramAccount) (u : String) : Option InstagramAccount :=
  accs.find? (fun a => a.username == u && a.is_active)

/-- Mutate the row found by findActive. -/
def updateFirstActive (u : String) (f : InstagramAccount → InstagramAccount)
    (accs : List InstagramAccount) : List InstagramAccount :=
  updateFirst (fun a => a.username == u && a.is_active) f accs

/-- Mutate the first row with the given username regardless of is_active:
the counter-update queries of publish_post/story/reel and the duplicate
check of add_account filter by username only. -/
def updateFirstByName (u : String) (f : InstagramAccount → InstagramAccount)
    (accs : List InstagramAccount) : List InstagramAccount :=
  updateFirst (fun a => a.username == u) f accs

/-- Outcome of get_account_client as seen by its caller. -/
inductive ClientResult
  | raised (msg : String)
  | noClient
  | client
deriving DecidableEq

/-- Embedding of get_account_client (src/main.py, lines 330-350).
An unknown or inactive username raises AccountNotFoundError, which
propagates to the caller.  Otherwise the stored password is decrypted and
init_instagram_client logs in; on success last_used is set to the current
time and committed before the client is returned, on failure the exception
is caught and None is returned with the row untouched. -/
def get_account_client (env : Env) (now : Nat) (w : World) (u : String) :
    World × ClientResult :=
  match findActive w.accounts u with
  | none => (w, ClientResult.raised ("Account " ++ u ++ " not found"))
  | some _ =>
      if env.clientOk u then
        ({ w with accounts :=
            updateFirstActive u (fun a => { a with last_used := some now }) w.accounts },
         ClientResult.client)
      else
        (w, ClientResult.noClient)

/-- One Publisher upload call: the call is counted, then the environment
decides whether it succeeds or raises. -/
def uploadCall (env : Env) (w : World) : World × Option String :=
  ({ w with uploadCalls := w.uploadCalls + 1 }, env.uploadResult w.uploadCalls)

/-- Sequential per-item upload, as in the story loop: one Publisher call
per media path, aborting at the first exception. -/
def uploadEach (env : Env) : List String → World → World × Option String
  | [], w => (w, none)
  | _ :: rest, w =>
      let u := uploadCall env w
      match u.2 with
      | some msg => (u.1, some msg)
      | none => uploadEach env rest u.1

/-- Increment posts_count on the row found by username
(src/main.py, lines 408-412). -/
def bumpPosts (u : String) (accs : List InstagramAccount) : List InstagramAccount :=
  updateFirstByName u (fun a => { a with posts_count := a.posts_count + 1 }) accs

/-- Increment stories_count on the row found by username. -/
def bumpStories (u : String) (accs : List InstagramAccount) : List InstagramAccount :=
  updateFirstByName u (fun a => { a with stories_count := a.stories_count + 1 }) accs

/-- Increment reels_count on the row found by username. -/
def bumpReels (u : String) (accs : List InstagramAccount) : List InstagramAccount :=
  updateFirstByName u (fun a => { a with reels_count := a.reels_count + 1 }) accs

/-- Embedding of publish_post (src/main.py, lines 377-423).  The body is
wrapped in a try/except that catches every exception, records status
failed with the message, and returns False; a photo or video media type
triggers exactly one Publisher call (photo_upload, video_upload or
album_upload depending on arity — one call in every case); for any other
media_type string no upload branch runs and the item is still marked
published, faithfully to the if/elif chain of the source. -/
def publish_post (env : Env) (now : Nat) (w : World) (p : Publication) :
    World × Publication × Bool :=
  let r := get_account_client env now w p.account_username
  match r.2 with
  | ClientResult.raised msg =>
      (r.1, { p with status := "failed", error_message := some msg }, false)
  | ClientResult.noClient =>
      (r.1, { p with status := "failed", error_message := some "Failed to get Instagram client" }, false)
  | ClientResult.client =>
      if p.media_type == "photo" || p.media_type == "video" then
        let u := uploadCall env r.1
        match u.2 with
        | some msg =>
            (u.1, { p with status := "failed", error_message := some msg }, false)
        | none =>
            ({ u.1 with accounts := bumpPosts p.account_username u.1.accounts },
             { p with status := "published", published_at := some now }, true)
      else
        ({ r.1 with accounts := bumpPosts p.account_username r.1.accounts },
         { p with status := "published", published_at := some now }, true)

/-- Embedding of publish_story (src/main.py, lines 425-462): one Publisher
call per media path when media_type is photo or video (the loop body makes
no call for other media types), aborting on the first exception; an empty
media_paths list makes zero calls and still reaches published. -/
def publish_story (env : Env) (now : Nat) (w : World) (p : Publication) :
    World × Publication × Bool :=
  let r := get_account_client env now w p.account_username
  match r.2 with
  | ClientResult.raised msg =>
      (r.1, { p with status := "failed", error_message := some msg }, false)
  | ClientResult.noClient =>
      (r.1, { p with status := "failed", error_message := some "Failed to get Instagram client" }, false)
  | ClientResult.client =>
      if p.media_type == "photo" || p.media_type == "video" then
        let u := uploadEach env p.media_paths r.1
        match u.2 with
        | some msg =>
            (u.1, { p with status := "failed", error_message := some msg }, false)
        | none =>
            ({ u.1 with accounts := bumpStories p.account_username u.1.accounts },
             { p with status := "published", published_at := some now }, true)
      else
        ({ r.1 with accounts := bumpStories p.account_username r.1.accounts },
         { p with status := "published", published_at := some now }, true)

/-- Embedding of publish_reel (src/main.py, lines 464-503).  The first
media path is indexed before anything else (IndexError on an empty list,
caught by the catch-all), then the probed duration is compared against
max_video_duration and a ValidationError is raised when it exceeds it
(also caught by the catch-all, so the item is failed without any Publisher
call); only then is clip_upload called with the first path, ignoring any
further media refs. -/
def publish_reel (cfg : BotConfig) (env : Env) (now : Nat) (w : World) (p : Publication) :
    World × Publication × Bool :=
  let r := get_account_client env now w p.account_username
  match r.2 with
  | ClientResult.raised msg =>
      (r.1, { p with status := "failed", error_message := some msg }, false)
  | ClientResult.noClient =>
      (r.1, { p with status := "failed", error_message := some "Failed to get Instagram client" }, false)
  | ClientResult.client =>
      match p.media_paths with
      | [] =>
          (r.1, { p with status := "failed", error_message := some "list index out of range" }, false)
      | path :: _ =>
          if env.videoDuration path > cfg.max_video_duration then
            let msg := "Video too long: " ++ toString (env.videoDuration path) ++
              "s (max: " ++ toString cfg.max_video_duration ++ "s)"
            (r.1, { p with status := "failed", error_message := some msg }, false)
          else
            let u := uploadCall env r.1
            match u.2 with
            | some msg =>
                (u.1, { p with status := "failed", error_message := some msg }, false)
            | none =>
                ({ u.1 with accounts := bumpReels p.account_username u.1.accounts },
                 { p with status := "published", published_at := some now }, true)

/-- Result record of one application of the retry decorator: the final
carried state, the Python return value (ok none models the silent None
return when the attempt loop never runs), the number of calls made to the
wrapped function, and the backoff delays slept between attempts. -/
structure RetryResult (α : Type) (β : Type) where
  state : α
  result : Except String (Option β)
  calls : Nat
  sleeps : List Nat

/-- Embedding of the retry decorator (src/main.py, lines 154-167): call
the wrapped function up to max_attempts times; after a raising attempt
that is not the last, sleep delay times 2 to the attempt index and try
again; the last raising attempt re-raises; with max_attempts 0 the loop
body never runs and None is returned.  The first argument of the recursion
is the remaining attempt budget, the second the current attempt index. -/
def retry (delay : Nat) (f : α → α × Except String β) :
    Nat → Nat → α → RetryResult α β
  | 0, _, s => ⟨s, Except.ok none, 0, []⟩
  | 1, _, s =>
      match f s with
      | (s1, Except.ok b) => ⟨s1, Except.ok (some b), 1, []⟩
      | (s1, Except.error e) => ⟨s1, Except.error e, 1, []⟩
  | Nat.succ (Nat.succ fuel), attempt, s =>
      match f s with
      | (s1, Except.ok b) => ⟨s1, Except.ok (some b), 1, []⟩
      | (s1, Except.error _) =>
          let r := retry delay f (Nat.succ fuel) (attempt + 1) s1
          ⟨r.state, r.result, r.calls + 1, delay * 2 ^ attempt :: r.sleeps⟩

/-- publish_post as the retry decorator sees it: the body catches every
exception itself, so the wrapped function always returns normally. -/
def publishPostFn (env : Env) (now : Nat) (s : World × Publication) :
    (World × Publication) × Except String Bool :=
  (((publish_post env now s.1 s.2).1, (publish_post env now s.1 s.2).2.1),
   Except.ok (publish_post env now s.1 s.2).2.2)

/-- publish_story as the retry decorator sees it. -/
def publishStoryFn (env : Env) (now : Nat) (s : World × Publication) :
    (World × Publication) × Except String Bool :=
  (((publish_story env now s.1 s.2).1, (publish_story env now s.1 s.2).2.1),
   Except.ok (publish_story env now s.1 s.2).2.2)

/-- publish_reel as the retry decorator sees it. -/
def publishReelFn (cfg : BotConfig) (env : Env) (now : Nat) (s : World × Publication) :
    (World × Publication) × Except String Bool :=
  (((publish_reel cfg env now s.1 s.2).1, (publish_reel cfg env now s.1 s.2).2.1),
   Except.ok (publish_reel cfg env now s.1 s.2).2.2)

/-- Dispatch of one due publication by the scheduler loop (src/main.py,
lines 541-556): the matching publish method, wrapped in
retry(max_attempts=3) with the default delay 1, is invoked; content types
outside post/story/reel fall through unprocessed. -/
def dispatch (cfg : BotConfig) (env : Env) (now : Nat) (w : World) (p : Publication) :
    World × Publication :=
  if p.content_type == "post" then
    (retry 1 (publishPostFn env now) 3 0 (w, p)).state
  else if p.content_type == "story" then
    (retry 1 (publishStoryFn env now) 3 0 (w, p)).state
  else if p.content_type == "reel" then
    (retry 1 (publishReelFn cfg env now) 3 0 (w, p)).state
  else
    (w, p)

/-- The whole persistent state the scheduler and the front-end share. -/
structure BotState where
  accounts : List InstagramAccount
  queue : List Publication
  uploadCalls : Nat
deriving DecidableEq

/-- The due filter of the scheduler query: status queued and
publish_time at or before the current time. -/
def isDue (now : Nat) (p : Publication) : Bool :=
  p.status == "queued" && decide (p.publish_time ≤ now)

/-- Indices of the publications the scheduler query selects, evaluated
once per tick on the queue as it is when the tick starts. -/
def dueIndices (now : Nat) (queue : List Publication) : List Nat :=
  (List.range queue.length).filter fun i =>
    match queue[i]? with
    | some p => isDue now p
    | none => false

/-- Process the publication at one selected index: dispatch it and write
the mutated row back. -/
def processIndex (cfg : BotConfig) (env : Env) (now : Nat) (st : BotState) (i : Nat) :
    BotState :=
  match st.queue[i]? with
  | none => st
  | some p =>
      let r := dispatch cfg env now ⟨st.accounts, st.uploadCalls⟩ p
      ⟨r.1.accounts, st.queue.set i r.2, r.1.uploadCalls⟩

/-- One iteration of the scheduler loop (src/main.py, lines 527-563):
select the due queued publications, then process each in order. -/
def schedulerTick (cfg : BotConfig) (env : Env) (now : Nat) (st : BotState) : BotState :=
  (dueIndices now st.queue).foldl (processIndex cfg env now) st

/-- Embedding of add_to_queue (src/main.py, lines 505-523): the draft is
stored as given, with status queued, and committed; no validation of any
kind is performed. -/
def add_to_queue (content_type media_type : String) (media_paths : List String)
    (caption : String) (publish_time : Nat) (account_username : String)
    (st : BotState) : BotState × Publication :=
  let p : Publication :=
    ⟨account_username, content_type, media_type, media_paths, caption,
     publish_time, "queued", none, none⟩
  ({ st with queue := st.queue ++ [p] }, p)

/-- Embedding of add_account (src/main.py, lines 290-328) restricted to
its effect on the account table: when the remote login succeeds the row is
inserted, or the existing row with that username is updated and
reactivated, in both cases with last_used set to the current time; when
the login raises, the transaction is rolled back and nothing changes. -/
def add_account (env : Env) (now : Nat) (accs : List InstagramAccount) (u : String) :
    List InstagramAccount × Bool :=
  if env.clientOk u then
    match accs.find? (fun a => a.username == u) with
    | some _ =>
        (updateFirstByName u
          (fun a => { a with last_used := some now, is_active := true }) accs, true)
    | none => (accs ++ [⟨u, true, some now, 0, 0, 0⟩], true)
  else (accs, false)

/-- Modelled from the spec: no operation cancelling a Publication appears
in the provided sources — the status column of src/main.py (line 84)
documents the value cancelled, and the spec (section 4.3) defines
Cancel(publicationId) as permitted only while status is queued, returning
a defined error once the item is terminal.  The embedding follows those
words: cancel succeeds exactly on a queued item, setting status to
cancelled, and returns an error without touching the state otherwise. -/
def cancel (st : BotState) (i : Nat) : BotState × Except String Unit :=
  match st.queue[i]? with
  | none => (st, Except.error "Publication not found")
  | some p =>
      if p.status == "queued" then
        ({ st with queue := st.queue.set i { p with status := "cancelled" } },
         Except.ok ())
      else
        (st, Except.error "Publication is not queued")

/-- Outcome of a raw cl.login(username, password) probe, as classified by
the exception handlers of get_2fa_methods: a clean session, a
TwoFactorRequired exception optionally carrying allowed_methods, or any
other exception with its message. -/
inductive LoginOutcome
  | ok
  | twoFactorRequired (allowed_methods : Option (List String))
  | otherError (msg : String)
deriving DecidableEq

/-- Embedding of get_2fa_methods (src/main.py, lines 278-288): a clean
login yields the empty list; TwoFactorRequired yields its allowed_methods
attribute, defaulting to the full channel list when the attribute is
absent; every other exception is caught, logged, and the empty list is
returned — no exception escapes. -/
def get_2fa_methods (o : LoginOutcome) : List String :=
  match o with
  | LoginOutcome.ok => []
  | LoginOutcome.twoFactorRequired (some ms) => ms
  | LoginOutcome.twoFactorRequired none => ["app", "sms", "whatsapp", "call", "email"]
  | LoginOutcome.otherError _ => []

/-- Counters of remote authentication traffic: password-login calls and
follow-up challenge-resolution calls. -/
structure RemoteLog where
  loginCalls : Nat
  challengeCalls : Nat
deriving DecidableEq

/-- Oracle deciding whether the n-th password-login call of a run is
accepted by the remote side. -/
structure LoginEnv where
  loginOk : Nat → Bool

/-- Embedding of init_instagram_client (src/main.py, lines 257-276) as
remote traffic: with a verification code and the email method the code
rides along on the single login call; with any other method the password
login call is followed by a challenge-resolution call
(challenge_code_handler); without a code there is only the login call.  A
rejected login raises (the decorated function re-raises after logging) and
makes no challenge call. -/
def init_instagram_client (le : LoginEnv) (code method : Option String)
    (log : RemoteLog) : RemoteLog × Except String Unit :=
  match code, method with
  | some _, some m =>
      if m == "email" then
        if le.loginOk log.loginCalls then
          ({ log with loginCalls := log.loginCalls + 1 }, Except.ok ())
        else
          ({ log with loginCalls := log.loginCalls + 1 }, Except.error "login failed")
      else
        if le.loginOk log.loginCalls then
          (⟨log.loginCalls + 1, log.challengeCalls + 1⟩, Except.ok ())
        else
          ({ log with loginCalls := log.loginCalls + 1 }, Except.error "login failed")
  | _, _ =>
      if le.loginOk log.loginCalls then
        ({ log with loginCalls := log.loginCalls + 1 }, Except.ok ())
      else
        ({ log with loginCalls := log.loginCalls + 1 }, Except.error "login failed")

/-- Remote traffic of add_account (src/main.py, lines 290-328):
init_instagram_client runs under retry(max_attempts=3); a surviving
exception is caught, the transaction is rolled back and False is
returned. -/
def add_account_remote (le : LoginEnv) (code method : Option String)
    (log : RemoteLog) : RemoteLog × Bool :=
  let r := retry 1 (init_instagram_client le code method) 3 0 log
  match r.result with
  | Except.ok _ => (r.state, true)
  | Except.error _ => (r.state, false)

/-- Embedding of the 2fa_code branch of validate_input
(src/main.py, lines 179-182): the pattern matches exactly six ASCII
decimal digits, anchored on both sides. -/
def matchesSixDigitCode (s : String) : Bool :=
  decide (s.length = 6) && s.toList.all Char.isDigit

/-- Embedding of handle_2fa_code_input under its validate_input decorator
(src/main.py, lines 1380-1415): a message failing the six-digit pattern
is answered with an error reply and the decorated handler body never
runs, so add_account — and with it every remote login or
challenge-resolution call — is skipped; a matching message reaches
add_account with the code and the chosen method.  Returned are the
remote-call log, whether the handler body ran, and whether add_account
reported success. -/
def handle_2fa_code_input (le : LoginEnv) (text method : String) (log : RemoteLog) :
    RemoteLog × Bool × Bool :=
  if matchesSixDigitCode text then
    let r := add_account_remote le (some text) (some method) log
    (r.1, true, r.2)
  else
    (log, false, false)

namespace V1

/-- Account record of the earlier rewrite (src/insta_bot.py, DataManager):
a pickled dict per username; only the fields the claims touch are kept. -/
structure Account where
  last_used : Option Nat
deriving DecidableEq

/-- Queue item of the earlier rewrite (src/insta_bot.py, add_to_queue,
lines 136-153): a dict with content, caption, publish_time, status and
target_account; no error message field exists. -/
structure Post where
  content : List String
  caption : String
  publish_time : Nat
  status : String
  target_account : String
  published_at : Option Nat
deriving DecidableEq

/-- Shared state of DataManager: the accounts dict, the post queue, and a
count of InstagramManager.publish_post invocations. -/
structure DMState where
  accounts : List (String × Account)
  post_queue : List Post
  publishCalls : Nat
deriving DecidableEq

/-- Oracle for the n-th publish_post call of a run: none means success,
some msg means the call raises. -/
structure V1Env where
  publishResult : Nat → Option String

/-- Dict lookup self.data_manager.accounts.get(target_account). -/
def lookupAccount (accs : List (String × Account)) (u : String) : Option Account :=
  (accs.find? (fun x => x.1 == u)).map Prod.snd

/-- Mutation of one entry of the accounts dict. -/
def setAccount (u : String) (f : Account → Account) :
    List (String × Account) → List (String × Account)
  | [] => []
  | x :: rest => if x.1 == u then (x.1, f x.2) :: rest else x :: setAccount u f rest

/-- One iteration of the loop body of check_post_queue
(src/insta_bot.py, lines 302-319): a queued, due post is looked up by
target account; when the account is missing the if-guard fails and the
post is left exactly as it is — no status change, no call, no error;
otherwise publish_post is invoked and the post becomes published (also
stamping published_at and the account last_used) or failed when the call
raises. -/
def cpqStep (env : V1Env) (now : Nat) (st : DMState) (i : Nat) : DMState :=
  match st.post_queue[i]? with
  | none => st
  | some post =>
      if post.status == "queued" && decide (post.publish_time ≤ now) then
        match lookupAccount st.accounts post.target_account with
        | none => st
        | some _ =>
            match env.publishResult st.publishCalls with
            | none =>
                ⟨setAccount post.target_account (fun a => { a with last_used := some now })
                   st.accounts,
                 st.post_queue.set i
                   { post with status := "published", published_at := some now },
                 st.publishCalls + 1⟩
            | some _ =>
                ⟨st.accounts,
                 st.post_queue.set i { post with status := "failed" },
                 st.publishCalls + 1⟩
      else st

/-- Embedding of check_post_queue (src/insta_bot.py, lines 302-319): the
loop walks the whole post queue once, in order. -/
def check_post_queue (env : V1Env) (now : Nat) (st : DMState) : DMState :=
  (List.range st.post_queue.length).foldl (cpqStep env now) st

/-- Embedding of InstagramManager.get_2fa_methods
(src/insta_bot.py, lines 215-233): identical shape to the enhanced
version, but the fallback list when TwoFactorRequired carries no
allowed_methods attribute omits the email channel. -/
def get_2fa_methods (o : LoginOutcome) : List String :=
  match o with
  | LoginOutcome.ok => []
  | LoginOutcome.twoFactorRequired (some ms) => ms
  | LoginOutcome.twoFactorRequired none => ["app", "sms", "whatsapp", "call"]
  | LoginOutcome.otherError _ => []

/-- Embedding of the str.isdigit() check of input_2fa_code
(src/insta_bot.py, line 641) over ASCII: true exactly on a non-empty
all-digit string. -/
def isdigitStr (s : String) : Bool :=
  !s.isEmpty && s.toList.all Char.isDigit

/-- Embedding of InstagramManager.init_client
(src/insta_bot.py, lines 162-213) as remote traffic: the app method sends
the code with the single login call; sms, whatsapp and call first log in
with the password and then resolve the challenge
(handle_two_factor_login); any other supplied method raises ValueError
before any call; without a code there is a bare login call.  Unlike the
enhanced version this function is not retry-wrapped. -/
def init_client (le : InstaBot.LoginEnv) (code method : Option String)
    (log : InstaBot.RemoteLog) : InstaBot.RemoteLog × Except String Unit :=
  match code, method with
  | some _, some m =>
      if m == "app" then
        if le.loginOk log.loginCalls then
          ({ log with loginCalls := log.loginCalls + 1 }, Except.ok ())
        else
          ({ log with loginCalls := log.loginCalls + 1 }, Except.error "login failed")
      else if m == "sms" || m == "whatsapp" || m == "call" then
        if le.loginOk log.loginCalls then
          (⟨log.loginCalls + 1, log.challengeCalls + 1⟩, Except.ok ())
        else
          ({ log with loginCalls := log.loginCalls + 1 }, Except.error "login failed")
      else
        (log, Except.error "ValueError: unknown two-factor method")
  | _, _ =>
      if le.loginOk log.loginCalls then
        ({ log with loginCalls := log.loginCalls + 1 }, Except.ok ())
      else
        ({ log with loginCalls := log.loginCalls + 1 }, Except.error "login failed")

/-- Remote traffic of DataManager.add_account
(src/insta_bot.py, lines 116-134): init_client runs once, any exception
is caught and False is returned. -/
def add_account_remote (le : InstaBot.LoginEnv) (code method : Option String)
    (log : InstaBot.RemoteLog) : InstaBot.RemoteLog × Bool :=
  match init_client le code method log with
  | (log1, Except.ok _) => (log1, true)
  | (log1, Except.error _) => (log1, false)

/-- Embedding of InstagramBot.input_2fa_code
(src/insta_bot.py, lines 633-663): a code that is not a non-empty
all-digit string of length six is answered with an error reply and the
handler returns to the same conversation state without any remote call;
otherwise DataManager.add_account runs with the code and method.
Returned are the remote-call log, whether the body past the format check
ran, and whether add_account reported success. -/
def input_2fa_code (le : InstaBot.LoginEnv) (text method : String)
    (log : InstaBot.RemoteLog) : InstaBot.RemoteLog × Bool × Bool :=
  if isdigitStr text && decide (text.length = 6) then
    let r := add_account_remote le (some text) (some method) log
    (r.1, true, r.2)
  else
    (log, false, false)

end V1

namespace SecurityManager

/-- Block transformation standing in for the AES core of the opaque
cipher capability.  The source (src/main.py, lines 115-141) delegates to
cryptography.fernet.Fernet; the cipher internals are external to the
repository, so a simple invertible byte operation carries the CBC layer —
the claims about the vault depend only on how the token is assembled
around it, not on the block cipher itself. -/
def cbcEnc (key : Nat) : Nat → List Nat → List Nat
  | _, [] => []
  | prev, b :: bs =>
      let c := (b + prev + key) % 256
      c :: cbcEnc key c bs

/-- Inverse of the chaining layer: each plaintext byte is recovered from
the ciphertext byte and the previous ciphertext block. -/
def cbcDec (key : Nat) : Nat → List Nat → List Nat
  | _, [] => []
  | prev, c :: cs =>
      let b := (c + 512 - prev % 256 - key % 256) % 256
      b :: cbcDec key c cs

/-- Shape of a Fernet token as specified by the Fernet format: version
byte, creation timestamp, the initialisation vector used for CBC, and the
ciphertext (the HMAC tag is omitted — authentication does not bear on the
determinism claims). -/
structure FernetToken where
  timestamp : Nat
  iv : Nat
  payload : List Nat
deriving DecidableEq

/-- Embedding of SecurityManager.encrypt (src/main.py, lines 132-134):
Fernet(key).encrypt(data).  Per the Fernet specification the library
draws a fresh random 128-bit IV from os.urandom and stamps the current
time on every call; both are explicit arguments here so the per-call
randomness the library injects is visible in the type.  The IV is
reduced to one block of the toy cipher. -/
def encrypt (key iv time : Nat) (data : List Nat) : FernetToken :=
  ⟨time, iv % 256, cbcEnc key (iv % 256) data⟩

/-- Embedding of SecurityManager.decrypt (src/main.py, lines 136-138):
Fernet(key).decrypt(token); a function of the cached derived key and the
token alone. -/
def decrypt (key : Nat) (tok : FernetToken) : List Nat :=
  cbcDec key tok.iv tok.payload

end SecurityManager

/-! Helper lemmas shared by the claim theorems. -/

/-- retry(max_attempts=3) around a wrapped function that always returns
normally makes exactly one call, sleeps never, and hands back that single
result: the decorated publish methods catch every exception themselves. -/
theorem retry3_publishPostFn (env : Env) (now attempt : Nat) (s : World × Publication) :
    retry 1 (publishPostFn env now) 3 attempt s =
      ⟨((publish_post env now s.1 s.2).1, (publish_post env now s.1 s.2).2.1),
       Except.ok (some (publish_post env now s.1 s.2).2.2), 1, []⟩ := rfl

/-- Single-call reduction of the retry wrapper around publish_story. -/
theorem retry3_publishStoryFn (env : Env) (now attempt : Nat) (s : World × Publication) :
    retry 1 (publishStoryFn env now) 3 attempt s =
      ⟨((publish_story env now s.1 s.2).1, (publish_story env now s.1 s.2).2.1),
       Except.ok (some (publish_story env now s.1 s.2).2.2), 1, []⟩ := rfl

/-- Single-call reduction of the retry wrapper around publish_reel. -/
theorem retry3_publishReelFn (cfg : BotConfig) (env : Env) (now attempt : Nat)
    (s : World × Publication) :
    retry 1 (publishReelFn cfg env now) 3 attempt s =
      ⟨((publish_reel cfg env now s.1 s.2).1, (publish_reel cfg env now s.1 s.2).2.1),
       Except.ok (some (publish_reel cfg env now s.1 s.2).2.2), 1, []⟩ := rfl

/-- get_account_client never touches the Publisher call counter. -/
theorem get_account_client_uploadCalls (env : Env) (now : Nat) (w : World) (u : String) :
    (get_account_client env now w u).1.uploadCalls = w.uploadCalls := by
  unfold get_account_client
  split
  · rfl
  · split
    · rfl
    · rfl

/-- The chaining layer of the vault model round-trips byte lists. -/
theorem cbcDec_cbcEnc (key : Nat) (bs : List Nat) :
    ∀ prev, (∀ b ∈ bs, b < 256) →
      SecurityManager.cbcDec key prev (SecurityManager.cbcEnc key prev bs) = bs := by
  induction bs with
  | nil => intro prev _; rfl
  | cons b rest ih =>
      intro prev h
      have hb : b < 256 := h b (List.mem_cons_self b rest)
      have hrest : ∀ x ∈ rest, x < 256 := fun x hx => h x (List.mem_cons_of_mem b hx)
      simp only [SecurityManager.cbcEnc, SecurityManager.cbcDec, List.cons.injEq]
      exact ⟨by omega, ih ((b + prev + key) % 256) hrest⟩

/-! Claim theorems. -/

/-- C10: get_2fa_methods is total over its error cases and never
propagates an exception: in both bot versions a clean login yields the
empty list, TwoFactorRequired yields the offered channels (or the default
list when the exception carries none), and every other failure — a wrong
password included — also yields the empty list, so the result cannot
distinguish a login that needs no second factor from a login that
failed. -/
theorem get_2fa_methods_total_and_blind (ms : List String) (m : String) :
    get_2fa_methods LoginOutcome.ok = [] ∧
    get_2fa_methods (LoginOutcome.otherError m) = [] ∧
    get_2fa_methods (LoginOutcome.twoFactorRequired (some ms)) = ms ∧
    get_2fa_methods (LoginOutcome.twoFactorRequired none) =
      ["app", "sms", "whatsapp", "call", "email"] ∧
    get_2fa_methods LoginOutcome.ok = get_2fa_methods (LoginOutcome.otherError m) ∧
    V1.get_2fa_methods LoginOutcome.ok = [] ∧
    V1.get_2fa_methods (LoginOutcome.otherError m) = [] ∧
    V1.get_2fa_methods (LoginOutcome.twoFactorRequired (some ms)) = ms ∧
    V1.get_2fa_methods (LoginOutcome.twoFactorRequired none) =
      ["app", "sms", "whatsapp", "call"] ∧
    V1.get_2fa_methods LoginOutcome.ok = V1.get_2fa_methods (LoginOutcome.otherError m) :=
  ⟨rfl, rfl, rfl, rfl, rfl, rfl, rfl, rfl, rfl, rfl⟩

/-- C6 counterexample: two Encrypt calls on the same plaintext under the
same derived key return different ciphertexts as soon as the library
draws different fresh IVs — which it does per call — so Encrypt is not a
deterministic function of key and plaintext. -/
theorem encrypt_not_deterministic :
    SecurityManager.encrypt 1 0 0 [1] ≠ SecurityManager.encrypt 1 1 0 [1] := by
  decide

/-- C6 (amended): Decrypt is a deterministic function of the derived key
and the token alone, and inverts Encrypt for every choice of the per-call
randomness: every ciphertext produced from a plaintext decrypts back to
that plaintext, so all the (differing) ciphertexts of one plaintext
decrypt alike, while Encrypt itself varies with the fresh IV. -/
theorem vault_decrypt_deterministic (key iv iv2 time time2 : Nat) (data : List Nat)
    (h : ∀ b ∈ data, b < 256) :
    SecurityManager.decrypt key (SecurityManager.encrypt key iv time data) = data ∧
    SecurityManager.decrypt key (SecurityManager.encrypt key iv2 time2 data) =
      SecurityManager.decrypt key (SecurityManager.encrypt key iv time data) := by
  have h1 : SecurityManager.decrypt key (SecurityManager.encrypt key iv time data) = data :=
    cbcDec_cbcEnc key data (iv % 256) h
  have h2 : SecurityManager.decrypt key (SecurityManager.encrypt key iv2 time2 data) = data :=
    cbcDec_cbcEnc key data (iv2 % 256) h
  exact ⟨h1, h2.trans h1.symm⟩

/-- Witness for vault_decrypt_deterministic at a concrete key, two
concrete IVs and a concrete plaintext. -/
theorem vault_decrypt_deterministic_witness :
    SecurityManager.decrypt 7 (SecurityManager.encrypt 7 9 3 [1, 255, 0, 44]) =
      [1, 255, 0, 44] ∧
    SecurityManager.decrypt 7 (SecurityManager.encrypt 7 12 8 [1, 255, 0, 44]) =
      SecurityManager.decrypt 7 (SecurityManager.encrypt 7 9 3 [1, 255, 0, 44]) :=
  vault_decrypt_deterministic 7 9 12 3 8 [1, 255, 0, 44] (by decide)

/-- C9 counterexample: Enqueue accepts a reel draft with two media refs,
and even a draft with no media at all, storing them as queued instead of
rejecting them before any state mutation. -/
theorem enqueue_accepts_invalid_reel :
    ((add_to_queue "reel" "video" ["a.mp4", "b.mp4"] "" 0 "u" ⟨[], [], 0⟩).1.queue.map
        Publication.status = ["queued"]) ∧
    ((add_to_queue "reel" "video" ["a.mp4", "b.mp4"] "" 0 "u" ⟨[], [], 0⟩).2.media_paths.length
        = 2) ∧
    ((add_to_queue "story" "photo" [] "" 0 "u" ⟨[], [], 0⟩).1.queue.map Publication.status
        = ["queued"]) := by
  decide

/-- C9 (amended): add_to_queue performs no validation at all — every
draft, empty media list and multi-ref reel included, is appended verbatim
with status queued.  The single-video reel convention surfaces only
downstream: publish_reel fails an empty-media reel at the list-indexing
step without invoking the Publisher, and makes at most one Publisher call
however many media refs the item carries. -/
theorem enqueue_accepts_everything (ct mt cap u : String) (paths : List String)
    (pt : Nat) (st : BotState) (env : Env) (cfg : BotConfig) (now c : Nat)
    (p : Publication) (accs : List InstagramAccount) :
    (add_to_queue ct mt paths cap pt u st).1.queue =
      st.queue ++ [⟨u, ct, mt, paths, cap, pt, "queued", none, none⟩] ∧
    (add_to_queue ct mt paths cap pt u st).2 =
      ⟨u, ct, mt, paths, cap, pt, "queued", none, none⟩ ∧
    (p.media_paths = [] → (∃ a, findActive accs p.account_username = some a) →
      env.clientOk p.account_username = true →
      (publish_reel cfg env now ⟨accs, c⟩ p).2.1.status = "failed" ∧
      (publish_reel cfg env now ⟨accs, c⟩ p).1.uploadCalls = c) ∧
    (publish_reel cfg env now ⟨accs, c⟩ p).1.uploadCalls ≤ c + 1 := by
  have hg := get_account_client_uploadCalls env now ⟨accs, c⟩ p.account_username
  refine ⟨rfl, rfl, ?_, ?_⟩
  · intro hnil hex hok
    rcases hex with ⟨a, ha⟩
    unfold publish_reel get_account_client
    simp [ha, hok, hnil]
  · rcases hr : get_account_client env now ⟨accs, c⟩ p.account_username with ⟨w1, res⟩
    rw [hr] at hg
    have hgc : w1.uploadCalls = c := hg
    simp only [publish_reel, hr]
    cases res with
    | raised msg => simpa using Nat.le_trans (Nat.le_of_eq hg) (Nat.le_succ c)
    | noClient => simpa using Nat.le_trans (Nat.le_of_eq hg) (Nat.le_succ c)
    | client =>
        cases hm : p.media_paths with
        | nil => simpa using Nat.le_trans (Nat.le_of_eq hg) (Nat.le_succ c)
        | cons path rest =>
            by_cases hd : env.videoDuration path > cfg.max_video_duration
            · simp only [hd, if_true]
              simpa using Nat.le_trans (Nat.le_of_eq hg) (Nat.le_succ c)
            · simp only [hd, if_false, uploadCall]
              cases hu : env.uploadResult w1.uploadCalls with
              | some msg => simp only []; omega
              | none => simp only [bumpReels]; omega


/-- C4: cancel succeeds exactly while the item is queued, turning it
cancelled; a second cancel of the same id yields the defined error with
the state untouched, and cancel on any item no longer queued (terminal
states included) errors without changing anything. -/
theorem cancel_only_while_queued (st : BotState) (i : Nat) :
    (∀ p, st.queue[i]? = some p → p.status = "queued" →
        (cancel st i).2 = Except.ok () ∧
        (cancel st i).1.queue[i]? = some { p with status := "cancelled" } ∧
        (cancel (cancel st i).1 i).2 = Except.error "Publication is not queued" ∧
        (cancel (cancel st i).1 i).1 = (cancel st i).1) ∧
    (∀ p, st.queue[i]? = some p → p.status ≠ "queued" →
        (cancel st i).2 = Except.error "Publication is not queued" ∧
        (cancel st i).1 = st) ∧
    (st.queue[i]? = none →
        (cancel st i).2 = Except.error "Publication not found" ∧ (cancel st i).1 = st) ∧
    (∀ p, st.queue[i]? = some p →
        ((cancel st i).2 = Except.ok () ↔ p.status = "queued")) := by
  refine ⟨?_, ?_, ?_, ?_⟩
  · intro p hp hq
    have hi : i < st.queue.length := by
      by_contra hlen
      rw [List.getElem?_eq_none_iff.mpr (by omega)] at hp
      cases hp
    have hcan : cancel st i =
        ({ st with queue := st.queue.set i { p with status := "cancelled" } },
         Except.ok ()) := by
      unfold cancel
      simp [hp, hq]
    have hget : (st.queue.set i { p with status := "cancelled" })[i]? =
        some { p with status := "cancelled" } := by
      rw [List.getElem?_set_self]
      simp [hi]
    refine ⟨by rw [hcan], by rw [hcan]; exact hget, ?_, ?_⟩
    · rw [hcan]
      unfold cancel
      simp [hget]
    · rw [hcan]
      unfold cancel
      simp [hget]
  · intro p hp hq
    unfold cancel
    simp [hp, hq]
  · intro hp
    unfold cancel
    simp [hp]
  · intro p hp
    constructor
    · intro hok
      by_contra hq
      unfold cancel at hok
      simp [hp, hq] at hok
    · intro hq
      unfold cancel
      simp [hp, hq]

/-- Witness for cancel_only_while_queued: on a one-item queued queue the
first cancel succeeds and turns the item cancelled, the second returns
the defined error without changing the state. -/
theorem cancel_only_while_queued_witness :
    (cancel ⟨[], [⟨"u", "post", "photo", ["a"], "", 0, "queued", none, none⟩], 0⟩ 0).2 =
      Except.ok () ∧
    (cancel ⟨[], [⟨"u", "post", "photo", ["a"], "", 0, "queued", none, none⟩], 0⟩
        0).1.queue[0]? =
      some ⟨"u", "post", "photo", ["a"], "", 0, "cancelled", none, none⟩ ∧
    (cancel (cancel ⟨[], [⟨"u", "post", "photo", ["a"], "", 0, "queued", none, none⟩], 0⟩
        0).1 0).2 = Except.error "Publication is not queued" ∧
    (cancel (cancel ⟨[], [⟨"u", "post", "photo", ["a"], "", 0, "queued", none, none⟩], 0⟩
        0).1 0).1 =
      (cancel ⟨[], [⟨"u", "post", "photo", ["a"], "", 0, "queued", none, none⟩], 0⟩ 0).1 :=
  (cancel_only_while_queued
      ⟨[], [⟨"u", "post", "photo", ["a"], "", 0, "queued", none, none⟩], 0⟩ 0).1
    ⟨"u", "post", "photo", ["a"], "", 0, "queued", none, none⟩ rfl rfl

/-- C5: an MFA code that is not exactly six decimal digits is rejected by
the input validation of both bot versions before any remote call: the
handler returns with the remote-call log untouched — zero login calls and
zero challenge-resolution calls — and the body holding add_account never
runs; conversely the body, and with it any challenge-resolution call,
runs only for inputs matching the six-digit format, so no login attempt
is consumed by a malformed code. -/
theorem invalid_2fa_code_no_remote_call (le : LoginEnv) (text method : String)
    (log : RemoteLog) :
    (matchesSixDigitCode text = false →
        handle_2fa_code_input le text method log = (log, false, false)) ∧
    ((V1.isdigitStr text && decide (text.length = 6)) = false →
        V1.input_2fa_code le text method log = (log, false, false)) ∧
    ((handle_2fa_code_input le text method log).2.1 = true →
        matchesSixDigitCode text = true) ∧
    ((handle_2fa_code_input le text method log).1.challengeCalls ≠ log.challengeCalls →
        matchesSixDigitCode text = true) := by
  refine ⟨?_, ?_, ?_, ?_⟩
  · intro h
    simp [handle_2fa_code_input, h]
  · intro h
    simp [V1.input_2fa_code, h]
  · intro h
    by_cases hm : matchesSixDigitCode text
    · exact hm
    · rw [Bool.not_eq_true] at hm
      simp [handle_2fa_code_input, hm] at h
  · intro h
    by_cases hm : matchesSixDigitCode text
    · exact hm
    · rw [Bool.not_eq_true] at hm
      simp [handle_2fa_code_input, hm] at h

/-- Witness for invalid_2fa_code_no_remote_call at the two example codes
of the claim: neither "12a45b" nor "1234" produces any remote traffic. -/
theorem invalid_2fa_code_no_remote_call_witness :
    handle_2fa_code_input ⟨fun _ => true⟩ "12a45b" "app" ⟨0, 0⟩ = (⟨0, 0⟩, false, false) ∧
    V1.input_2fa_code ⟨fun _ => true⟩ "1234" "sms" ⟨0, 0⟩ = (⟨0, 0⟩, false, false) :=
  ⟨(invalid_2fa_code_no_remote_call ⟨fun _ => true⟩ "12a45b" "app" ⟨0, 0⟩).1 (by decide),
   (invalid_2fa_code_no_remote_call ⟨fun _ => true⟩ "1234" "sms" ⟨0, 0⟩).2.1 (by decide)⟩

/-- C7 counterexample: in the earlier scheduler (src/insta_bot.py) a due,
queued post whose target account is unknown is NOT transitioned to
failed: check_post_queue leaves it queued, records no error and never
invokes the Publisher, so the item is silently re-scanned forever. -/
theorem missing_account_skipped_not_failed :
    ((V1.check_post_queue ⟨fun _ => none⟩ 5
        ⟨[], [⟨["a.jpg"], "c", 0, "queued", "ghost", none⟩], 0⟩).post_queue.map
          V1.Post.status = ["queued"]) ∧
    (V1.check_post_queue ⟨fun _ => none⟩ 5
        ⟨[], [⟨["a.jpg"], "c", 0, "queued", "ghost", none⟩], 0⟩).publishCalls = 0 := by
  decide

/-- C7 (amended): the two scheduler generations disagree about a missing
or inactive target account.  In the enhanced engine (src/main.py) the
attempt fails immediately: get_account_client raises
AccountNotFoundError, publish_post records status failed with the
descriptive message, no Publisher call is made, nothing else changes, and
the retry wrapper makes exactly one call.  In the earlier engine
(src/insta_bot.py) check_post_queue instead skips such an item entirely,
leaving it queued with no error and no Publisher call. -/
theorem missing_account_split_behavior (env : Env) (now c : Nat)
    (accs : List InstagramAccount) (p : Publication)
    (hnone : findActive accs p.account_username = none) :
    publish_post env now ⟨accs, c⟩ p =
      (⟨accs, c⟩, { p with status := "failed", error_message := some ("Account " ++ p.account_username ++ " not found") }, false) ∧
    (retry 1 (publishPostFn env now) 3 0 (⟨accs, c⟩, p)).calls = 1 ∧
    (∀ (venv : V1.V1Env) (vnow k : Nat) (post : V1.Post)
        (vaccs : List (String × V1.Account)),
        V1.lookupAccount vaccs post.target_account = none →
        V1.check_post_queue venv vnow ⟨vaccs, [post], k⟩ = ⟨vaccs, [post], k⟩) := by
  refine ⟨?_, ?_, ?_⟩
  · unfold publish_post get_account_client
    simp [hnone]
  · rw [retry3_publishPostFn]
  · intro venv vnow k post vaccs h
    show (List.range 1).foldl (V1.cpqStep venv vnow) ⟨vaccs, [post], k⟩ = ⟨vaccs, [post], k⟩
    have hr1 : List.range 1 = [0] := rfl
    rw [hr1]
    simp only [List.foldl_cons, List.foldl_nil, V1.cpqStep, List.getElem?_cons_zero]
    split
    · rw [h]
    · rfl

/-- Witness for missing_account_split_behavior: with an empty account
table the attempt on a post targeting "ghost" is failed with the
descriptive error and zero Publisher calls. -/
theorem missing_account_split_behavior_witness :
    (publish_post ⟨fun _ => true, fun _ => none, fun _ => 30⟩ 5 ⟨[], 0⟩
        ⟨"ghost", "post", "photo", ["a.jpg"], "", 0, "queued", none, none⟩).2.1.status =
      "failed" ∧
    (publish_post ⟨fun _ => true, fun _ => none, fun _ => 30⟩ 5 ⟨[], 0⟩
        ⟨"ghost", "post", "photo", ["a.jpg"], "", 0, "queued", none, none⟩).2.1.error_message =
      some "Account ghost not found" ∧
    (publish_post ⟨fun _ => true, fun _ => none, fun _ => 30⟩ 5 ⟨[], 0⟩
        ⟨"ghost", "post", "photo", ["a.jpg"], "", 0, "queued", none, none⟩).1.uploadCalls = 0 := by
  have h := missing_account_split_behavior ⟨fun _ => true, fun _ => none, fun _ => 30⟩ 5 0 []
      ⟨"ghost", "post", "photo", ["a.jpg"], "", 0, "queued", none, none⟩ (by decide)
  rw [h.1]
  exact ⟨rfl, rfl, rfl⟩

/-- C8 counterexample: a publish attempt that fails transiently at the
upload stage does NOT leave last_used unchanged — get_account_client has
already stamped and committed it when the client was obtained, before the
Publisher was ever called. -/
theorem failed_attempt_updates_last_used :
    ((publish_post ⟨fun _ => true, fun _ => some "network error", fun _ => 30⟩ 5
        ⟨[⟨"acct1", true, none, 0, 0, 0⟩], 0⟩
        ⟨"acct1", "post", "photo", ["f.jpg"], "", 0, "queued", none, none⟩).2.1.status =
      "failed") ∧
    ((publish_post ⟨fun _ => true, fun _ => some "network error", fun _ => 30⟩ 5
        ⟨[⟨"acct1", true, none, 0, 0, 0⟩], 0⟩
        ⟨"acct1", "post", "photo", ["f.jpg"], "", 0, "queued", none, none⟩).1.accounts.map
          InstagramAccount.last_used = [some 5]) := by
  decide

/-- C8 (amended): last_used is stamped exactly when the account client is
successfully obtained during an attempt, and on a successful AddAccount
login.  An attempt failing at account resolution or login leaves
last_used untouched; an attempt that obtains the client and then fails at
the upload has already updated last_used — the stamp in
get_account_client is committed before the Publisher is called — and a
successful attempt updates it as well. -/
theorem last_used_updated_on_login_success (env : Env) (now c : Nat)
    (acc : InstagramAccount) (u m : String) (p : Publication)
    (ha : acc.username = u) (hact : acc.is_active = true)
    (hp : p.account_username = u) (hmt : p.media_type = "photo") :
    (env.clientOk u = true →
        ∀ a2 ∈ (publish_post env now ⟨[acc], c⟩ p).1.accounts, a2.last_used = some now) ∧
    (env.clientOk u = false →
        (publish_post env now ⟨[acc], c⟩ p).1.accounts = [acc]) ∧
    (env.clientOk u = true → env.uploadResult c = some m →
        (publish_post env now ⟨[acc], c⟩ p).2.1.status = "failed" ∧
        (publish_post env now ⟨[acc], c⟩ p).1.accounts =
          [{ acc with last_used := some now }]) ∧
    (env.clientOk u = true →
        ∀ a2 ∈ (add_account env now [acc] u).1, a2.last_used = some now) ∧
    (env.clientOk u = false →
        (add_account env now [acc] u).1 = [acc] ∧ (add_account env now [acc] u).2 = false) := by
  have hfind : findActive [acc] u = some acc := by
    unfold findActive
    exact List.find?_cons_of_pos _ (by simp [ha, hact])
  have hupd : updateFirstActive u (fun a => { a with last_used := some now }) [acc] =
      [{ acc with last_used := some now }] := by
    unfold updateFirstActive updateFirst
    simp [ha, hact]
  refine ⟨?_, ?_, ?_, ?_, ?_⟩
  · intro hc a2 hmem
    unfold publish_post get_account_client at hmem
    simp only [hp, hfind, hc, if_true, hupd] at hmem
    cases hu : env.uploadResult c with
    | some msg =>
        simp only [hmt, uploadCall, hu] at hmem
        simp at hmem
        rw [hmem]
    | none =>
        simp only [hmt, uploadCall, hu] at hmem
        simp [bumpPosts, updateFirstByName, updateFirst, ha] at hmem
        rw [hmem]
  · intro hc
    unfold publish_post get_account_client
    simp [hp, hfind, hc]
  · intro hc hu
    unfold publish_post get_account_client
    simp [hp, hfind, hc, hupd, hmt, uploadCall, hu]
  · intro hc a2 hmem
    unfold add_account at hmem
    rw [hc] at hmem
    simp only [if_true] at hmem
    rw [List.find?_cons_of_pos _ (by simp [ha])] at hmem
    simp only [updateFirstByName, updateFirst, ha] at hmem
    simp at hmem
    rw [hmem]
  · intro hc
    unfold add_account
    rw [hc]
    simp

/-- Witness for last_used_updated_on_login_success: a transiently failing
attempt still stamps last_used with the attempt time. -/
theorem last_used_updated_on_login_success_witness :
    (publish_post ⟨fun _ => true, fun _ => some "network error", fun _ => 30⟩ 5
        ⟨[⟨"acct1", true, some 1, 3, 0, 0⟩], 0⟩
        ⟨"acct1", "post", "photo", ["f.jpg"], "", 0, "queued", none, none⟩).2.1.status =
      "failed" ∧
    (publish_post ⟨fun _ => true, fun _ => some "network error", fun _ => 30⟩ 5
        ⟨[⟨"acct1", true, some 1, 3, 0, 0⟩], 0⟩
        ⟨"acct1", "post", "photo", ["f.jpg"], "", 0, "queued", none, none⟩).1.accounts =
      [⟨"acct1", true, some 5, 3, 0, 0⟩] :=
  (last_used_updated_on_login_success
      ⟨fun _ => true, fun _ => some "network error", fun _ => 30⟩ 5 0
      ⟨"acct1", true, some 1, 3, 0, 0⟩ "acct1" "network error"
      ⟨"acct1", "post", "photo", ["f.jpg"], "", 0, "queued", none, none⟩
      rfl rfl rfl rfl).2.2.1 rfl rfl

/-- C1 counterexample: with a Publisher mock that always raises a
transient error, the item is NOT left queued after the first attempt and
never reaches three attempts: a single scheduler pass makes exactly one
Publisher call and the item is already failed, with no recorded
not-before retry timestamp anywhere in the data model. -/
theorem retry_bound_claim_false :
    ((schedulerTick defaultConfig ⟨fun _ => true, fun _ => some "network error", fun _ => 30⟩
        5 ⟨[⟨"acct1", true, none, 0, 0, 0⟩],
           [⟨"acct1", "post", "photo", ["f.jpg"], "", 0, "queued", none, none⟩], 0⟩).queue.map
        Publication.status ≠ ["queued"]) ∧
    ((schedulerTick defaultConfig ⟨fun _ => true, fun _ => some "network error", fun _ => 30⟩
        5 ⟨[⟨"acct1", true, none, 0, 0, 0⟩],
           [⟨"acct1", "post", "photo", ["f.jpg"], "", 0, "queued", none, none⟩], 0⟩).queue.map
        Publication.status = ["failed"]) ∧
    ((schedulerTick defaultConfig ⟨fun _ => true, fun _ => some "network error", fun _ => 30⟩
        5 ⟨[⟨"acct1", true, none, 0, 0, 0⟩],
           [⟨"acct1", "post", "photo", ["f.jpg"], "", 0, "queued", none, none⟩],
           0⟩).uploadCalls = 1) ∧
    ((schedulerTick defaultConfig ⟨fun _ => true, fun _ => some "network error", fun _ => 30⟩
        5 ⟨[⟨"acct1", true, none, 0, 0, 0⟩],
           [⟨"acct1", "post", "photo", ["f.jpg"], "", 0, "queued", none, none⟩],
           0⟩).uploadCalls ≠ 3) := by
  decide

/-- C1 (amended): with a Publisher that always raises a transient error,
a due queued post transitions to failed with the last error recorded
after exactly ONE attempt: the catch-all inside publish_post swallows
every exception before the retry(max_attempts=3) decorator can observe
it, so there is no second attempt, no backoff sleep, no not-before retry
timestamp, and a later tick never picks the item up again. -/
theorem transient_failure_one_attempt_then_failed (cfg : BotConfig) (env : Env)
    (u m cap : String) (acc : InstagramAccount) (c now now2 t : Nat) (p : Publication)
    (ha : acc.username = u) (hact : acc.is_active = true)
    (hc : env.clientOk u = true)
    (hfail : ∀ n, env.uploadResult n = some m)
    (ht : t ≤ now)
    (hp : p = ⟨u, "post", "photo", ["f.jpg"], cap, t, "queued", none, none⟩) :
    schedulerTick cfg env now ⟨[acc], [p], c⟩ =
      ⟨[{ acc with last_used := some now }],
       [{ p with status := "failed", error_message := some m }], c + 1⟩ ∧
    (retry 1 (publishPostFn env now) 3 0 (⟨[acc], c⟩, p)).calls = 1 ∧
    (retry 1 (publishPostFn env now) 3 0 (⟨[acc], c⟩, p)).sleeps = [] ∧
    schedulerTick cfg env now2 (schedulerTick cfg env now ⟨[acc], [p], c⟩) =
      schedulerTick cfg env now ⟨[acc], [p], c⟩ := by
  subst hp
  have hfind : findActive [acc] u = some acc := by
    unfold findActive
    exact List.find?_cons_of_pos _ (by simp [ha, hact])
  have hupd : updateFirstActive u (fun a => { a with last_used := some now }) [acc] =
      [{ acc with last_used := some now }] := by
    unfold updateFirstActive updateFirst
    simp [ha, hact]
  have hpub : publish_post env now ⟨[acc], c⟩
      ⟨u, "post", "photo", ["f.jpg"], cap, t, "queued", none, none⟩ =
      (⟨[{ acc with last_used := some now }], c + 1⟩,
       ⟨u, "post", "photo", ["f.jpg"], cap, t, "failed", none, some m⟩, false) := by
    unfold publish_post get_account_client
    simp [hfind, hc, hupd, uploadCall, hfail c]
  have hdue : dueIndices now
      [(⟨u, "post", "photo", ["f.jpg"], cap, t, "queued", none, none⟩ : Publication)] =
      [0] := by
    unfold dueIndices
    have hr1 : List.range (List.length
        [(⟨u, "post", "photo", ["f.jpg"], cap, t, "queued", none, none⟩ : Publication)]) =
        [0] := rfl
    rw [hr1]
    simp [List.filter_cons, List.filter_nil, isDue, ht]
  have htick : schedulerTick cfg env now
      ⟨[acc], [⟨u, "post", "photo", ["f.jpg"], cap, t, "queued", none, none⟩], c⟩ =
      ⟨[{ acc with last_used := some now }],
       [⟨u, "post", "photo", ["f.jpg"], cap, t, "failed", none, some m⟩], c + 1⟩ := by
    unfold schedulerTick
    rw [hdue]
    simp only [List.foldl_cons, List.foldl_nil]
    unfold processIndex
    simp only [List.getElem?_cons_zero]
    unfold dispatch
    simp only [retry3_publishPostFn, hpub]
    rfl
  have hdue2 : dueIndices now2
      [(⟨u, "post", "photo", ["f.jpg"], cap, t, "failed", none, some m⟩ : Publication)] =
      [] := by
    unfold dueIndices
    have hr1 : List.range (List.length
        [(⟨u, "post", "photo", ["f.jpg"], cap, t, "failed", none, some m⟩ : Publication)]) =
        [0] := rfl
    rw [hr1]
    simp [List.filter_cons, List.filter_nil, isDue]
  refine ⟨htick, by rw [retry3_publishPostFn], by rw [retry3_publishPostFn], ?_⟩
  rw [htick]
  unfold schedulerTick
  rw [hdue2]
  rfl

/-- Witness for transient_failure_one_attempt_then_failed at a concrete
account, post and always-failing Publisher. -/
theorem transient_failure_one_attempt_then_failed_witness :
    schedulerTick defaultConfig ⟨fun _ => true, fun _ => some "network error", fun _ => 30⟩ 5
        ⟨[⟨"acct1", true, none, 0, 0, 0⟩],
         [⟨"acct1", "post", "photo", ["f.jpg"], "", 0, "queued", none, none⟩], 0⟩ =
      ⟨[⟨"acct1", true, some 5, 0, 0, 0⟩],
       [⟨"acct1", "post", "photo", ["f.jpg"], "", 0, "failed", none, some "network error"⟩],
       1⟩ ∧
    (retry 1 (publishPostFn ⟨fun _ => true, fun _ => some "network error", fun _ => 30⟩ 5) 3 0
        (⟨[⟨"acct1", true, none, 0, 0, 0⟩], 0⟩,
         ⟨"acct1", "post", "photo", ["f.jpg"], "", 0, "queued", none, none⟩)).calls = 1 := by
  have h := transient_failure_one_attempt_then_failed defaultConfig
      ⟨fun _ => true, fun _ => some "network error", fun _ => 30⟩ "acct1" "network error" ""
      ⟨"acct1", true, none, 0, 0, 0⟩ 0 5 9 0
      ⟨"acct1", "post", "photo", ["f.jpg"], "", 0, "queued", none, none⟩
      rfl rfl rfl (fun _ => rfl) (by decide) rfl
  exact ⟨h.1, h.2.1⟩

/-- C3: a reel whose probed duration exceeds the configured maximum is
failed up front by the scheduler with the validation message, with the
Publisher never invoked for it — the upload-call counter is unchanged —
the retry wrapper making a single call with no backoff sleeps, and a
later tick never picking the item up again. -/
theorem reel_overlong_rejected_up_front (cfg : BotConfig) (env : Env)
    (u cap path : String) (rest : List String) (acc : InstagramAccount)
    (c now now2 t : Nat) (p : Publication)
    (ha : acc.username = u) (hact : acc.is_active = true)
    (hc : env.clientOk u = true)
    (hd : env.videoDuration path > cfg.max_video_duration)
    (ht : t ≤ now)
    (hp : p = ⟨u, "reel", "video", path :: rest, cap, t, "queued", none, none⟩) :
    schedulerTick cfg env now ⟨[acc], [p], c⟩ =
      ⟨[{ acc with last_used := some now }],
       [{ p with status := "failed", error_message := some ("Video too long: " ++ toString (env.videoDuration path) ++ "s (max: " ++ toString cfg.max_video_duration ++ "s)") }],
       c⟩ ∧
    (retry 1 (publishReelFn cfg env now) 3 0 (⟨[acc], c⟩, p)).calls = 1 ∧
    (retry 1 (publishReelFn cfg env now) 3 0 (⟨[acc], c⟩, p)).sleeps = [] ∧
    schedulerTick cfg env now2 (schedulerTick cfg env now ⟨[acc], [p], c⟩) =
      schedulerTick cfg env now ⟨[acc], [p], c⟩ ∧
    (∀ (w : World) (a : InstagramAccount), findActive w.accounts u = some a →
      (publish_reel cfg env now w p).1.uploadCalls = w.uploadCalls ∧
      (publish_reel cfg env now w p).2.1.status = "failed") := by
  subst hp
  have hfind : findActive [acc] u = some acc := by
    unfold findActive
    exact List.find?_cons_of_pos _ (by simp [ha, hact])
  have hupd : updateFirstActive u (fun a => { a with last_used := some now }) [acc] =
      [{ acc with last_used := some now }] := by
    unfold updateFirstActive updateFirst
    simp [ha, hact]
  have hpub : publish_reel cfg env now ⟨[acc], c⟩
      ⟨u, "reel", "video", path :: rest, cap, t, "queued", none, none⟩ =
      (⟨[{ acc with last_used := some now }], c⟩,
       ⟨u, "reel", "video", path :: rest, cap, t, "failed", none,
        some ("Video too long: " ++ toString (env.videoDuration path) ++ "s (max: " ++ toString cfg.max_video_duration ++ "s)")⟩, false) := by
    unfold publish_reel get_account_client
    simp [hfind, hc, hupd, hd]
  have hdue : dueIndices now
      [(⟨u, "reel", "video", path :: rest, cap, t, "queued", none, none⟩ : Publication)] =
      [0] := by
    unfold dueIndices
    have hr1 : List.range (List.length
        [(⟨u, "reel", "video", path :: rest, cap, t, "queued", none, none⟩ : Publication)]) =
        [0] := rfl
    rw [hr1]
    simp [List.filter_cons, List.filter_nil, isDue, ht]
  have htick : schedulerTick cfg env now
      ⟨[acc], [⟨u, "reel", "video", path :: rest, cap, t, "queued", none, none⟩], c⟩ =
      ⟨[{ acc with last_used := some now }],
       [⟨u, "reel", "video", path :: rest, cap, t, "failed", none,
         some ("Video too long: " ++ toString (env.videoDuration path) ++ "s (max: " ++ toString cfg.max_video_duration ++ "s)")⟩], c⟩ := by
    unfold schedulerTick
    rw [hdue]
    simp only [List.foldl_cons, List.foldl_nil]
    unfold processIndex
    simp only [List.getElem?_cons_zero]
    unfold dispatch
    simp only [retry3_publishReelFn, hpub]
    rfl
  have hdue2 : dueIndices now2
      [(⟨u, "reel", "video", path :: rest, cap, t, "failed", none,
         some ("Video too long: " ++ toString (env.videoDuration path) ++ "s (max: " ++ toString cfg.max_video_duration ++ "s)")⟩ : Publication)] = [] := by
    unfold dueIndices
    have hr1 : List.range (List.length
        [(⟨u, "reel", "video", path :: rest, cap, t, "failed", none,
           some ("Video too long: " ++ toString (env.videoDuration path) ++ "s (max: " ++ toString cfg.max_video_duration ++ "s)")⟩ : Publication)]) = [0] := rfl
    rw [hr1]
    simp [List.filter_cons, List.filter_nil, isDue]
  refine ⟨htick, by rw [retry3_publishReelFn], by rw [retry3_publishReelFn], ?_, ?_⟩
  · rw [htick]
    unfold schedulerTick
    rw [hdue2]
    rfl
  · intro w a hfa
    unfold publish_reel get_account_client
    simp [hfa, hc, hd]

/-- Witness for reel_overlong_rejected_up_front: a 61 second reel against
the 60 second default maximum is failed with the message and zero
Publisher calls. -/
theorem reel_overlong_rejected_up_front_witness :
    schedulerTick defaultConfig ⟨fun _ => true, fun _ => none, fun _ => 61⟩ 5
        ⟨[⟨"acct1", true, none, 0, 0, 0⟩],
         [⟨"acct1", "reel", "video", ["v.mp4"], "", 0, "queued", none, none⟩], 0⟩ =
      ⟨[⟨"acct1", true, some 5, 0, 0, 0⟩],
       [⟨"acct1", "reel", "video", ["v.mp4"], "", 0, "failed", none,
         some "Video too long: 61s (max: 60s)"⟩], 0⟩ ∧
    (retry 1 (publishReelFn defaultConfig ⟨fun _ => true, fun _ => none, fun _ => 61⟩ 5) 3 0
        (⟨[⟨"acct1", true, none, 0, 0, 0⟩], 0⟩,
         ⟨"acct1", "reel", "video", ["v.mp4"], "", 0, "queued", none, none⟩)).calls = 1 := by
  have h := reel_overlong_rejected_up_front defaultConfig
      ⟨fun _ => true, fun _ => none, fun _ => 61⟩ "acct1" "" "v.mp4" []
      ⟨"acct1", true, none, 0, 0, 0⟩ 0 5 9 0
      ⟨"acct1", "reel", "video", ["v.mp4"], "", 0, "queued", none, none⟩
      rfl rfl rfl (by decide) (by decide) rfl
  exact ⟨h.1, h.2.1⟩

/-- One admissible evolution of a single Publication status under the
engine: unchanged, or queued to published, or queued to failed. -/
def statusStep (before after : Publication) : Prop :=
  after = before ∨
    (before.status = "queued" ∧ (after.status = "published" ∨ after.status = "failed"))

/-- An index with a value forced by getElem? is within bounds. -/
theorem lt_length_of_getElem?_eq_some {α : Type} {l : List α} {i : Nat} {a : α}
    (h : l[i]? = some a) : i < l.length := by
  by_contra hlen
  rw [List.getElem?_eq_none_iff.mpr (by omega)] at h
  cases h

/-- Every branch of publish_post ends in published or failed. -/
theorem publish_post_status_cases (env : Env) (now : Nat) (w : World) (p : Publication) :
    (publish_post env now w p).2.1.status = "published" ∨
    (publish_post env now w p).2.1.status = "failed" := by
  rcases hr : get_account_client env now w p.account_username with ⟨w1, res⟩
  simp only [publish_post, hr]
  cases res with
  | raised msg => right; rfl
  | noClient => right; rfl
  | client =>
      by_cases hb : (p.media_type == "photo" || p.media_type == "video") = true
      · simp only [hb, if_true, uploadCall]
        cases env.uploadResult w1.uploadCalls with
        | some m => right; rfl
        | none => left; rfl
      · simp only [hb, if_false]
        left; rfl

/-- Every branch of publish_story ends in published or failed. -/
theorem publish_story_status_cases (env : Env) (now : Nat) (w : World) (p : Publication) :
    (publish_story env now w p).2.1.status = "published" ∨
    (publish_story env now w p).2.1.status = "failed" := by
  rcases hr : get_account_client env now w p.account_username with ⟨w1, res⟩
  simp only [publish_story, hr]
  cases res with
  | raised msg => right; rfl
  | noClient => right; rfl
  | client =>
      by_cases hb : (p.media_type == "photo" || p.media_type == "video") = true
      · simp only [hb, if_true]
        cases (uploadEach env p.media_paths w1).2 with
        | some m => right; rfl
        | none => left; rfl
      · simp only [hb, if_false]
        left; rfl

/-- Every branch of publish_reel ends in published or failed. -/
theorem publish_reel_status_cases (cfg : BotConfig) (env : Env) (now : Nat)
    (w : World) (p : Publication) :
    (publish_reel cfg env now w p).2.1.status = "published" ∨
    (publish_reel cfg env now w p).2.1.status = "failed" := by
  rcases hr : get_account_client env now w p.account_username with ⟨w1, res⟩
  simp only [publish_reel, hr]
  cases res with
  | raised msg => right; rfl
  | noClient => right; rfl
  | client =>
      cases p.media_paths with
      | nil => right; rfl
      | cons path rest =>
          by_cases hd : env.videoDuration path > cfg.max_video_duration
          · simp [if_pos hd]
          · simp only [if_neg hd, uploadCall]
            cases env.uploadResult w1.uploadCalls with
            | some m => right; rfl
            | none => left; rfl

/-- Dispatch turns a queued item into published or failed or leaves it
untouched: exactly the admissible single-item transitions. -/
theorem dispatch_status_step (cfg : BotConfig) (env : Env) (now : Nat) (w : World)
    (p : Publication) (hq : p.status = "queued") :
    statusStep p (dispatch cfg env now w p).2 := by
  unfold statusStep dispatch
  by_cases h1 : (p.content_type == "post") = true
  · simp only [h1, if_true, retry3_publishPostFn]
    rcases publish_post_status_cases env now w p with h | h
    · exact Or.inr ⟨hq, Or.inl h⟩
    · exact Or.inr ⟨hq, Or.inr h⟩
  · simp only [h1, if_false]
    by_cases h2 : (p.content_type == "story") = true
    · simp only [h2, if_true, retry3_publishStoryFn]
      rcases publish_story_status_cases env now w p with h | h
      · exact Or.inr ⟨hq, Or.inl h⟩
      · exact Or.inr ⟨hq, Or.inr h⟩
    · simp only [h2, if_false]
      by_cases h3 : (p.content_type == "reel") = true
      · simp only [h3, if_true, retry3_publishReelFn]
        rcases publish_reel_status_cases cfg env now w p with h | h
        · exact Or.inr ⟨hq, Or.inl h⟩
        · exact Or.inr ⟨hq, Or.inr h⟩
      · simp only [h3, if_false]
        exact Or.inl rfl

/-- processIndex leaves every other queue position untouched. -/
theorem processIndex_queue_other (cfg : BotConfig) (env : Env) (now : Nat)
    (st : BotState) (i j : Nat) (hij : i ≠ j) :
    (processIndex cfg env now st i).queue[j]? = st.queue[j]? := by
  unfold processIndex
  cases h : st.queue[i]? with
  | none => rfl
  | some p => simp [List.getElem?_set_ne hij]

/-- processIndex writes the dispatched row back at its own position. -/
theorem processIndex_queue_self (cfg : BotConfig) (env : Env) (now : Nat)
    (st : BotState) (i : Nat) (p : Publication) (hp : st.queue[i]? = some p) :
    (processIndex cfg env now st i).queue[i]? =
      some (dispatch cfg env now ⟨st.accounts, st.uploadCalls⟩ p).2 := by
  have hi : i < st.queue.length := lt_length_of_getElem?_eq_some hp
  unfold processIndex
  rw [hp]
  simp only [List.getElem?_set_self]
  simp [hi]

/-- Folding the per-index processing over a duplicate-free list of
indices that are queued in the reference state preserves the admissible
status evolution of every queue position. -/
theorem foldl_process_statusStep (cfg : BotConfig) (env : Env) (now : Nat)
    (st0 : BotState) :
    ∀ (ds : List Nat) (st : BotState),
      ds.Nodup →
      (∀ i ∈ ds, st.queue[i]? = st0.queue[i]? ∧
          (∀ p, st0.queue[i]? = some p → p.status = "queued")) →
      (∀ (j : Nat) (p p2 : Publication),
          st0.queue[j]? = some p → st.queue[j]? = some p2 → statusStep p p2) →
      ∀ (j : Nat) (p p2 : Publication), st0.queue[j]? = some p →
        (List.foldl (processIndex cfg env now) st ds).queue[j]? = some p2 →
        statusStep p p2 := by
  intro ds
  induction ds with
  | nil =>
      intro st _ _ hstep j p p2 h1 h2
      exact hstep j p p2 h1 (by simpa using h2)
  | cons i rest ih =>
      intro st hnodup hprop hstep j p p2 h1 h2
      rw [List.foldl_cons] at h2
      have hnd2 := List.nodup_cons.mp hnodup
      refine ih (processIndex cfg env now st i) hnd2.2 ?_ ?_ j p p2 h1 h2
      · intro i2 hi2
        have hi2i : i ≠ i2 := fun he => hnd2.1 (he ▸ hi2)
        refine ⟨?_, (hprop i2 (List.mem_cons_of_mem i hi2)).2⟩
        rw [processIndex_queue_other cfg env now st i i2 hi2i]
        exact (hprop i2 (List.mem_cons_of_mem i hi2)).1
      · intro j2 q q2 hq hq2
        by_cases hji : j2 = i
        · subst hji
          have hcur : st.queue[j2]? = some q := by
            rw [(hprop j2 (List.mem_cons_self j2 rest)).1]
            exact hq
          have hqueued : q.status = "queued" :=
            (hprop j2 (List.mem_cons_self j2 rest)).2 q hq
          rw [processIndex_queue_self cfg env now st j2 q hcur] at hq2
          have hq2eq : q2 = (dispatch cfg env now ⟨st.accounts, st.uploadCalls⟩ q).2 :=
            (Option.some.injEq _ _ ▸ hq2).symm
          rw [hq2eq]
          exact dispatch_status_step cfg env now ⟨st.accounts, st.uploadCalls⟩ q hqueued
        · rw [processIndex_queue_other cfg env now st i j2 (fun he => hji he.symm)] at hq2
          exact hstep j2 q q2 hq hq2

/-- Membership in the due-index selection yields queued status in the
reference state. -/
theorem dueIndices_queued (now : Nat) (queue : List Publication) (i : Nat)
    (hi : i ∈ dueIndices now queue) :
    ∀ p, queue[i]? = some p → p.status = "queued" := by
  intro p hp
  unfold dueIndices at hi
  have hm := List.mem_filter.mp hi
  have hpred := hm.2
  rw [hp] at hpred
  simp only [isDue, Bool.and_eq_true, beq_iff_eq, decide_eq_true_eq] at hpred
  exact hpred.1

/-- The due-index selection never lists an index twice. -/
theorem dueIndices_nodup (now : Nat) (queue : List Publication) :
    (dueIndices now queue).Nodup := by
  unfold dueIndices
  exact (List.nodup_range _).filter _

/-- Per-item Publisher-call accounting for a published post: exactly one
upload call was made for it and that call succeeded. -/
theorem publish_post_published_call (env : Env) (now : Nat) (w : World) (p : Publication)
    (hmt : p.media_type = "photo" ∨ p.media_type = "video")
    (hpub : (publish_post env now w p).2.1.status = "published") :
    (publish_post env now w p).1.uploadCalls = w.uploadCalls + 1 ∧
    env.uploadResult w.uploadCalls = none := by
  have hg := get_account_client_uploadCalls env now w p.account_username
  rcases hr : get_account_client env now w p.account_username with ⟨w1, res⟩
  rw [hr] at hg
  simp only [publish_post, hr] at hpub ⊢
  have hb : (p.media_type == "photo" || p.media_type == "video") = true := by
    rcases hmt with h | h <;> simp [h]
  cases res with
  | raised msg => exact absurd hpub (by simp)
  | noClient => exact absurd hpub (by simp)
  | client =>
      have hg2 : w1.uploadCalls = w.uploadCalls := hg
      simp only [hb, if_true, uploadCall] at hpub ⊢
      cases hu : env.uploadResult w1.uploadCalls with
      | some m => rw [hu] at hpub; exact absurd hpub (by simp)
      | none =>
          refine ⟨?_, ?_⟩
          · show w1.uploadCalls + 1 = w.uploadCalls + 1
            omega
          · rw [← hg2]
            exact hu

/-- Per-item Publisher-call accounting for a published story with a
non-empty media list of a photo or video type: at least one upload call
was made for it. -/
theorem publish_story_published_call (env : Env) (now : Nat) (w : World) (p : Publication)
    (hmt : p.media_type = "photo" ∨ p.media_type = "video")
    (hne : p.media_paths ≠ [])
    (hpub : (publish_story env now w p).2.1.status = "published") :
    w.uploadCalls + 1 ≤ (publish_story env now w p).1.uploadCalls := by
  have hg := get_account_client_uploadCalls env now w p.account_username
  rcases hr : get_account_client env now w p.account_username with ⟨w1, res⟩
  rw [hr] at hg
  have hg2 : w1.uploadCalls = w.uploadCalls := hg
  have hb : (p.media_type == "photo" || p.media_type == "video") = true := by
    rcases hmt with h | h <;> simp [h]
  have hmono : ∀ (paths : List String) (w2 : World),
      w2.uploadCalls ≤ (uploadEach env paths w2).1.uploadCalls := by
    intro paths
    induction paths with
    | nil => intro w2; exact Nat.le_refl _
    | cons q qs ihq =>
        intro w2
        simp only [uploadEach, uploadCall]
        cases env.uploadResult w2.uploadCalls with
        | some m2 => exact Nat.le_succ _
        | none =>
            exact Nat.le_trans (Nat.le_succ _)
              (ihq ⟨w2.accounts, w2.uploadCalls + 1⟩)
  simp only [publish_story, hr] at hpub
  cases res with
  | raised msg => exact absurd hpub (by simp)
  | noClient => exact absurd hpub (by simp)
  | client =>
      obtain ⟨path, rest, hm⟩ : ∃ a l, p.media_paths = a :: l := by
        cases hpm : p.media_paths with
        | nil => exact absurd hpm hne
        | cons a l => exact ⟨a, l, rfl⟩
      have hcalls : (publish_story env now w p).1.uploadCalls =
          (uploadEach env p.media_paths w1).1.uploadCalls := by
        simp only [publish_story, hr, hb, if_true]
        cases (uploadEach env p.media_paths w1).2 with
        | some m => rfl
        | none => rfl
      rw [hcalls, hm]
      have hlow : w1.uploadCalls + 1 ≤
          (uploadEach env (path :: rest) w1).1.uploadCalls := by
        simp only [uploadEach, uploadCall]
        cases env.uploadResult w1.uploadCalls with
        | some m => exact Nat.le_refl _
        | none =>
            exact Nat.le_trans (Nat.le_refl _)
              (hmono rest ⟨w1.accounts, w1.uploadCalls + 1⟩)
      omega

/-- Per-item Publisher-call accounting for a published reel: exactly one
upload call was made for it and that call succeeded. -/
theorem publish_reel_published_call (cfg : BotConfig) (env : Env) (now : Nat)
    (w : World) (p : Publication)
    (hpub : (publish_reel cfg env now w p).2.1.status = "published") :
    (publish_reel cfg env now w p).1.uploadCalls = w.uploadCalls + 1 ∧
    env.uploadResult w.uploadCalls = none := by
  have hg := get_account_client_uploadCalls env now w p.account_username
  rcases hr : get_account_client env now w p.account_username with ⟨w1, res⟩
  rw [hr] at hg
  have hg2 : w1.uploadCalls = w.uploadCalls := hg
  simp only [publish_reel, hr] at hpub
  cases res with
  | raised msg => exact absurd hpub (by simp)
  | noClient => exact absurd hpub (by simp)
  | client =>
      cases hm : p.media_paths with
      | nil => simp only [hm] at hpub; exact absurd hpub (by simp)
      | cons path rest =>
          simp only [hm] at hpub
          by_cases hd : env.videoDuration path > cfg.max_video_duration
          · simp only [if_pos hd] at hpub
            exact absurd hpub (by simp)
          · simp only [if_neg hd, uploadCall] at hpub
            cases hu : env.uploadResult w1.uploadCalls with
            | some m => rw [hu] at hpub; exact absurd hpub (by simp)
            | none =>
                have hcalls : (publish_reel cfg env now w p).1.uploadCalls =
                    w1.uploadCalls + 1 := by
                  simp [publish_reel, hr, hm, if_neg hd, uploadCall, hu, bumpReels]
                refine ⟨?_, ?_⟩
                · rw [hcalls]
                  omega
                · rw [← hg2]
                  exact hu

/-- C2 counterexample: an item can reach published without any Publisher
call — a story with an empty media list is marked published by a tick
that makes zero upload calls, although the mock Publisher would have
raised had it been called at all. -/
theorem published_without_publisher_call :
    ((schedulerTick defaultConfig ⟨fun _ => true, fun _ => some "never called", fun _ => 30⟩
        5 ⟨[⟨"acct1", true, none, 0, 0, 0⟩],
           [⟨"acct1", "story", "photo", [], "", 0, "queued", none, none⟩], 0⟩).queue.map
        Publication.status = ["published"]) ∧
    ((schedulerTick defaultConfig ⟨fun _ => true, fun _ => some "never called", fun _ => 30⟩
        5 ⟨[⟨"acct1", true, none, 0, 0, 0⟩],
           [⟨"acct1", "story", "photo", [], "", 0, "queued", none, none⟩],
           0⟩).uploadCalls = 0) := by
  decide

/-- C2 (amended): across a scheduler tick every Publication either keeps
its exact row or moves from queued to published or failed — so published,
failed and cancelled rows are never touched again — and whenever an item
with a photo or video media type (and, for stories, a non-empty media
list) is published, a successful Publisher call is recorded for it; an
item with an empty media list or an out-of-range media type can, however,
reach published with zero Publisher calls. -/
theorem publication_status_machine (cfg : BotConfig) (env : Env) (now : Nat)
    (st : BotState) :
    (∀ (j : Nat) (p p2 : Publication), st.queue[j]? = some p →
        (schedulerTick cfg env now st).queue[j]? = some p2 → statusStep p p2) ∧
    (∀ (j : Nat) (p p2 : Publication), st.queue[j]? = some p →
        (p.status = "published" ∨ p.status = "failed" ∨ p.status = "cancelled") →
        (schedulerTick cfg env now st).queue[j]? = some p2 → p2 = p) ∧
    (∀ (w : World) (p : Publication),
        (p.media_type = "photo" ∨ p.media_type = "video") →
        (publish_post env now w p).2.1.status = "published" →
        (publish_post env now w p).1.uploadCalls = w.uploadCalls + 1 ∧
          env.uploadResult w.uploadCalls = none) ∧
    (∀ (w : World) (p : Publication),
        (p.media_type = "photo" ∨ p.media_type = "video") → p.media_paths ≠ [] →
        (publish_story env now w p).2.1.status = "published" →
        w.uploadCalls + 1 ≤ (publish_story env now w p).1.uploadCalls) ∧
    (∀ (w : World) (p : Publication),
        (publish_reel cfg env now w p).2.1.status = "published" →
        (publish_reel cfg env now w p).1.uploadCalls = w.uploadCalls + 1 ∧
          env.uploadResult w.uploadCalls = none) := by
  have hmain : ∀ (j : Nat) (p p2 : Publication), st.queue[j]? = some p →
      (schedulerTick cfg env now st).queue[j]? = some p2 → statusStep p p2 := by
    intro j p p2 h1 h2
    refine foldl_process_statusStep cfg env now st (dueIndices now st.queue) st
      (dueIndices_nodup now st.queue) ?_ ?_ j p p2 h1 h2
    · intro i hi
      exact ⟨rfl, dueIndices_queued now st.queue i hi⟩
    · intro j2 q q2 hq hq2
      rw [hq] at hq2
      exact Or.inl (Option.some.injEq _ _ ▸ hq2).symm
  refine ⟨hmain, ?_, publish_post_published_call env now,
    publish_story_published_call env now, publish_reel_published_call cfg env now⟩
  intro j p p2 h1 hterm h2
  rcases hmain j p p2 h1 h2 with h | ⟨hq, _⟩
  · exact h
  · rcases hterm with h | h | h <;> rw [h] at hq <;> exact absurd hq (by decide)

/-- Witness for publication_status_machine: a published post with photo
media has exactly one successful Publisher call recorded. -/
theorem publication_status_machine_witness :
    (publish_post ⟨fun _ => true, fun _ => none, fun _ => 30⟩ 5
        ⟨[⟨"acct1", true, none, 0, 0, 0⟩], 0⟩
        ⟨"acct1", "post", "photo", ["f.jpg"], "", 0, "queued", none, none⟩).1.uploadCalls
      = 1 ∧
    (⟨fun _ => true, fun _ => none, fun _ => 30⟩ : Env).uploadResult 0 = none := by
  have h := (publication_status_machine defaultConfig
      ⟨fun _ => true, fun _ => none, fun _ => 30⟩ 5 ⟨[], [], 0⟩).2.2.1
      ⟨[⟨"acct1", true, none, 0, 0, 0⟩], 0⟩
      ⟨"acct1", "post", "photo", ["f.jpg"], "", 0, "queued", none, none⟩
      (Or.inl rfl) (by decide)
  exact ⟨h.1, h.2⟩

/-- Witness for enqueue_accepts_everything: an empty-media reel that was
accepted into the queue is failed downstream without any Publisher
call. -/
theorem enqueue_accepts_everything_witness :
    (publish_reel defaultConfig ⟨fun _ => true, fun _ => none, fun _ => 30⟩ 5
        ⟨[⟨"acct1", true, none, 0, 0, 0⟩], 0⟩
        ⟨"acct1", "reel", "video", [], "", 0, "queued", none, none⟩).2.1.status =
      "failed" ∧
    (publish_reel defaultConfig ⟨fun _ => true, fun _ => none, fun _ => 30⟩ 5
        ⟨[⟨"acct1", true, none, 0, 0, 0⟩], 0⟩
        ⟨"acct1", "reel", "video", [], "", 0, "queued", none, none⟩).1.uploadCalls = 0 :=
  (enqueue_accepts_everything "reel" "video" "" "u" [] 0 ⟨[], [], 0⟩
      ⟨fun _ => true, fun _ => none, fun _ => 30⟩ defaultConfig 5 0
      ⟨"acct1", "reel", "video", [], "", 0, "queued", none, none⟩
      [⟨"acct1", true, none, 0, 0, 0⟩]).2.2.1 rfl
    ⟨⟨"acct1", true, none, 0, 0, 0⟩, by decide⟩ rfl

end InstaBot
